import Mathlib

/-!
Shallow embedding of `src/tooling/reflection/src/reflection/licensing.py`.

The module defines a single function `header()` that returns a multi-line
license banner for generated Swift files.  Python strings are modelled as
lists of Unicode code points (`List Char`), Python exceptions as an
`Except` error type, and the filesystem as a map from paths to optional
`stat` results carrying an optional birth time (seconds since the epoch,
converted to a calendar year in the proleptic Gregorian calendar, UTC).
-/

namespace Licensing

/-- A Python `str` value, modelled as its sequence of Unicode code points. -/
abbrev PyStr := List Char

/-- Decimal digits of a natural number, most significant first, as produced
by Python `str` on a non-negative integer. -/
def natChars (n : Nat) : List Char :=
  if n < 10 then [Nat.digitChar n]
  else natChars (n / 10) ++ [Nat.digitChar (n % 10)]
decreasing_by exact Nat.div_lt_self (by omega) (by omega)

/-- Python `str` on an `int`, as used by the f-string interpolation
`{caller_file_creation_year}`. -/
def strOfInt (i : Int) : PyStr :=
  if i < 0 then '-' :: natChars i.natAbs else natChars i.toNat

/-- The seventeen lines of the f-string literal returned by `header`
(the final element is the two-space indentation that precedes the closing
triple quote).  Transcribed line for line from the source. -/
def headerLines (caller_file_creation_year : Int) : List PyStr :=
  [ "// ===-------------------------------------------------------------------------------------------===".toList
  , "  // Copyright © ".toList ++ strOfInt caller_file_creation_year ++
      " Supernova. All rights reserved.".toList
  , "  //".toList
  , "  // This file is part of the Deus open-source project.".toList
  , "  //".toList
  , "  // This program is free software: you can redistribute it and/or modify it under the terms of the".toList
  , "  // GNU General Public License as published by the Free Software Foundation, either version 3 of the".toList
  , "  // License, or (at your option) any later version.".toList
  , "  //".toList
  , "  // This program is distributed in the hope that it will be useful, but WITHOUT ANY WARRANTY; without".toList
  , "  // even the implied warranty of MERCHANTABILITY or FITNESS FOR A PARTICULAR PURPOSE. See the GNU".toList
  , "  // General Public License for more details.".toList
  , "  //".toList
  , "  // You should have received a copy of the GNU General Public License along with this program. If".toList
  , "  // not, see https://www.gnu.org/licenses.".toList
  , "  // ===-------------------------------------------------------------------------------------------===".toList
  , "  ".toList
  ]

/-- A list of lines joined by newline characters (how a multi-line string
literal relates to its lines). -/
def joinLines : List PyStr → PyStr
  | [] => []
  | [l] => l
  | l :: ls => l ++ '\n' :: joinLines ls

/-- The f-string returned by `header`: its seventeen literal lines joined by
newlines, with the computed year interpolated into the copyright line. -/
def headerText (caller_file_creation_year : Int) : PyStr :=
  joinLines (headerLines caller_file_creation_year)

/-- The Python exceptions the code can raise. -/
inductive PyError where
  /-- `OSError` (`FileNotFoundError`): `stat` on a path that does not exist. -/
  | osError
  /-- `AttributeError`: the `stat` result has no `st_birthtime` field
  (filesystem without creation-time support). -/
  | attributeError
  /-- `ValueError`/`OverflowError`: `date.fromtimestamp` on a timestamp whose
  date falls outside `date.min ... date.max` (years 1 to 9999). -/
  | valueError
deriving DecidableEq, Repr

/-- The result of `Path.stat()`: only the field the code reads. -/
structure Stat where
  st_birthtime : Option Int
deriving DecidableEq, Repr

/-- The filesystem metadata visible to the code: `stat p = none` models a
path that no longer exists, `some st` a successful `stat` call. -/
structure FileSystem where
  stat : String → Option Stat

/-- The path of the module that defines `header`. -/
def licensingFile : String := "src/tooling/reflection/src/reflection/licensing.py"

/-- `inspect.stack()` as observed inside the body of `header`: entry `0` is
the frame currently executing `header` itself, whose `filename` is this
module's own file; the frames of the callers follow in order. -/
def stack (callers : List String) : List String := licensingFile :: callers

/-- Day number (days since 1970-01-01) to Gregorian calendar year. -/
def yearFromDays (z : Int) : Int :=
  let d := z + 719468
  let era : Int := Int.fdiv d 146097
  let doe : Nat := (d - era * 146097).toNat
  let yoe : Nat := (doe - doe / 1460 + doe / 36524 - doe / 146096) / 365
  let doy : Nat := doe - (365 * yoe + yoe / 4 - yoe / 100)
  let mp : Nat := (5 * doy + 2) / 153
  let m : Nat := if mp < 10 then mp + 3 else mp - 9
  (yoe : Int) + era * 400 + (if m ≤ 2 then 1 else 0)

/-- `date.fromtimestamp(ts).year` (UTC model): the calendar year of the
timestamp, defined for years `1` to `9999`; outside that range the date
constructor raises. -/
def fromtimestampYear (ts : Int) : Except PyError Int :=
  let y := yearFromDays (Int.fdiv ts 86400)
  if 1 ≤ y ∧ y ≤ 9999 then Except.ok y else Except.error PyError.valueError

/-- The function `header()` of `licensing.py`.  `callers` are the filenames
of the frames below `header` on the call stack (the invoking file first);
`fs` is the filesystem metadata at the time of the call. -/
def header (callers : List String) (fs : FileSystem) : Except PyError PyStr :=
  let caller_file_path := (stack callers).headD ""
  match fs.stat caller_file_path with
  | none => Except.error PyError.osError
  | some st =>
    match st.st_birthtime with
    | none => Except.error PyError.attributeError
    | some ts =>
      match fromtimestampYear ts with
      | Except.error e => Except.error e
      | Except.ok caller_file_creation_year =>
        Except.ok (headerText caller_file_creation_year)

/-- The observable world state at a call: the filesystem metadata together
with every other piece of observable state (of arbitrary type `σ`). -/
structure World (σ : Type) where
  fs : FileSystem
  rest : σ

/-- `header()` as a state-passing computation over the observable world:
each step of the source either reads (`stat`) or is pure, so each branch
returns the world it was given. -/
def headerRun {σ : Type} (callers : List String) (w : World σ) :
    Except PyError PyStr × World σ :=
  let caller_file_path := (stack callers).headD ""
  match w.fs.stat caller_file_path with
  | none => (Except.error PyError.osError, w)
  | some st =>
    match st.st_birthtime with
    | none => (Except.error PyError.attributeError, w)
    | some ts =>
      match fromtimestampYear ts with
      | Except.error e => (Except.error e, w)
      | Except.ok caller_file_creation_year =>
        (Except.ok (headerText caller_file_creation_year), w)

/-- Splitting a character sequence at newline characters, as Python
`str.split` with separator a newline: the lines of a string. -/
def splitLines : PyStr → List PyStr
  | [] => [[]]
  | c :: cs =>
    if c = '\n' then [] :: splitLines cs
    else
      match splitLines cs with
      | [] => [[c]]
      | l :: ls => (c :: l) :: ls

deriving instance DecidableEq for Except

/-- The horizontal-rule delimiter line that opens the header (the closing
delimiter is the same rule indented by two spaces). -/
def hruleChars : PyStr :=
  "// ===-------------------------------------------------------------------------------------------===".toList

/-- The constant text of the f-string before the year interpolation. -/
def headerPre : PyStr :=
  "// ===-------------------------------------------------------------------------------------------===\n  // Copyright © ".toList

/-- The constant text of the f-string after the year interpolation: the rest
of the copyright line, the project name and the GPL-3.0-or-later boilerplate,
the closing delimiter, and the trailing two-space indentation. -/
def headerSuf : PyStr :=
  " Supernova. All rights reserved.\n  //\n  // This file is part of the Deus open-source project.\n  //\n  // This program is free software: you can redistribute it and/or modify it under the terms of the\n  // GNU General Public License as published by the Free Software Foundation, either version 3 of the\n  // License, or (at your option) any later version.\n  //\n  // This program is distributed in the hope that it will be useful, but WITHOUT ANY WARRANTY; without\n  // even the implied warranty of MERCHANTABILITY or FITNESS FOR A PARTICULAR PURPOSE. See the GNU\n  // General Public License for more details.\n  //\n  // You should have received a copy of the GNU General Public License along with this program. If\n  // not, see https://www.gnu.org/licenses.\n  // ===-------------------------------------------------------------------------------------------===\n  ".toList

/-- A concrete filesystem: the licensing module has birth time
`1735689600` (2025-01-01), and a file `caller.py` that invokes `header`
has birth time `1577836800` (2020-01-01). -/
def fsBoth : FileSystem :=
  ⟨fun p =>
    if p = licensingFile then some ⟨some 1735689600⟩
    else if p = "caller.py" then some ⟨some 1577836800⟩
    else none⟩

/-- A filesystem on which every `stat` call fails (file no longer exists). -/
def fsMissing : FileSystem := ⟨fun _ => none⟩

/-- A filesystem whose `stat` results carry no `st_birthtime` field
(creation-time metadata unsupported). -/
def fsNoBirth : FileSystem := ⟨fun _ => some ⟨none⟩⟩

theorem digitChar_ne_nl (n : Nat) : Nat.digitChar n ≠ '\n' := by
  rcases Nat.lt_or_ge n 16 with h | h
  · interval_cases n <;> decide
  · unfold Nat.digitChar
    iterate 16 rw [if_neg (by omega)]
    decide

theorem natChars_of_lt (n : Nat) (h : n < 10) : natChars n = [Nat.digitChar n] := by
  rw [natChars.eq_def]
  simp [h]

theorem natChars_of_ge (n : Nat) (h : ¬ n < 10) :
    natChars n = natChars (n / 10) ++ [Nat.digitChar (n % 10)] := by
  rw [natChars.eq_def]
  simp [h]

theorem no_nl_natChars (n : Nat) : '\n' ∉ natChars n := by
  induction n using Nat.strong_induction_on with
  | _ n ih =>
    by_cases h : n < 10
    · rw [natChars_of_lt n h]
      intro hm
      rw [List.mem_singleton] at hm
      exact digitChar_ne_nl n hm.symm
    · rw [natChars_of_ge n h]
      intro hm
      rcases List.mem_append.mp hm with hm | hm
      · exact ih (n / 10) (Nat.div_lt_self (by omega) (by omega)) hm
      · rw [List.mem_singleton] at hm
        exact digitChar_ne_nl (n % 10) hm.symm

theorem no_nl_strOfInt (i : Int) : '\n' ∉ strOfInt i := by
  unfold strOfInt
  split
  · intro hm
    rcases List.mem_cons.mp hm with hm | hm
    · exact absurd hm (by decide)
    · exact no_nl_natChars _ hm
  · exact no_nl_natChars _

theorem natChars_length_four (n : Nat) (h1 : 1000 ≤ n) (h2 : n ≤ 9999) :
    (natChars n).length = 4 := by
  rw [natChars_of_ge n (by omega), natChars_of_ge (n / 10) (by omega),
    natChars_of_ge (n / 10 / 10) (by omega), natChars_of_lt (n / 10 / 10 / 10) (by omega)]
  simp

theorem strOfInt_length_four (i : Int) (h1 : 1000 ≤ i) (h2 : i ≤ 9999) :
    (strOfInt i).length = 4 := by
  unfold strOfInt
  rw [if_neg (by omega)]
  exact natChars_length_four i.toNat (by omega) (by omega)

theorem strOfInt_2025 : strOfInt 2025 = ['2', '0', '2', '5'] := by
  simp [strOfInt, natChars]
  decide

theorem strOfInt_2020 : strOfInt 2020 = ['2', '0', '2', '0'] := by
  simp [strOfInt, natChars]
  decide

theorem splitLines_ne_nil (cs : PyStr) : splitLines cs ≠ [] := by
  induction cs with
  | nil => simp [splitLines]
  | cons c cs ih =>
    simp only [splitLines]
    split
    · simp
    · split
      · simp
      · simp

theorem splitLines_append (xs ys : PyStr) (h : '\n' ∉ xs) :
    splitLines (xs ++ ys) = (xs ++ (splitLines ys).headI) :: (splitLines ys).tail := by
  induction xs with
  | nil =>
    cases hys : splitLines ys with
    | nil => exact absurd hys (splitLines_ne_nil ys)
    | cons l ls => simp [hys]
  | cons c xs ih =>
    have hc : ¬ c = '\n' := fun hc => h (hc ▸ List.mem_cons_self c xs)
    have hxs : '\n' ∉ xs := fun hm => h (List.mem_cons_of_mem c hm)
    rw [List.cons_append, splitLines, if_neg hc, ih hxs]
    simp

theorem splitLines_joinLines :
    ∀ L : List PyStr, L ≠ [] → (∀ l ∈ L, '\n' ∉ l) → splitLines (joinLines L) = L := by
  intro L
  induction L with
  | nil => intro hne _; exact absurd rfl hne
  | cons x L ih =>
    intro _ h
    cases L with
    | nil =>
      have hx : '\n' ∉ x := h x (List.mem_cons_self x [])
      have h0 := splitLines_append x [] hx
      rw [List.append_nil] at h0
      show splitLines x = [x]
      rw [h0]
      simp [splitLines]
    | cons y L =>
      have hx : '\n' ∉ x := h x (List.mem_cons_self x (y :: L))
      have hrest : ∀ l ∈ y :: L, '\n' ∉ l := fun l hl => h l (List.mem_cons_of_mem x hl)
      show splitLines (x ++ '\n' :: joinLines (y :: L)) = x :: y :: L
      rw [splitLines_append x ('\n' :: joinLines (y :: L)) hx]
      have hs : splitLines ('\n' :: joinLines (y :: L)) = [] :: splitLines (joinLines (y :: L)) := by
        rw [splitLines, if_pos rfl]
      rw [hs, ih (List.cons_ne_nil y L) hrest]
      simp

theorem no_nl_headerLines (y : Int) : ∀ l ∈ headerLines y, '\n' ∉ l := by
  intro l hl
  simp only [headerLines, List.mem_cons, List.not_mem_nil, or_false] at hl
  rcases hl with rfl | rfl | rfl | rfl | rfl | rfl | rfl | rfl | rfl | rfl | rfl | rfl | rfl |
    rfl | rfl | rfl | rfl
  case inr.inl =>
    intro hm
    rcases List.mem_append.mp hm with hm | hm
    · rcases List.mem_append.mp hm with hm | hm
      · exact absurd hm (by decide)
      · exact no_nl_strOfInt y hm
    · exact absurd hm (by decide)
  all_goals decide

theorem splitLines_headerText (y : Int) : splitLines (headerText y) = headerLines y :=
  splitLines_joinLines (headerLines y) (by simp [headerLines]) (no_nl_headerLines y)

theorem fromtimestampYear_ok_inv (ts y : Int) (h : fromtimestampYear ts = Except.ok y) :
    1 ≤ y ∧ y ≤ 9999 := by
  simp only [fromtimestampYear] at h
  split at h
  · rename_i hc
    cases h
    exact hc
  · simp at h

theorem header_ok_inv (callers : List String) (fs : FileSystem) (s : PyStr)
    (h : header callers fs = Except.ok s) :
    ∃ st ts y, fs.stat licensingFile = some st ∧ st.st_birthtime = some ts ∧
      fromtimestampYear ts = Except.ok y ∧ s = headerText y := by
  unfold header stack at h
  simp only [List.headD_cons] at h
  cases hst : fs.stat licensingFile with
  | none => simp only [hst] at h; exact Except.noConfusion h
  | some st =>
    simp only [hst] at h
    cases hts : st.st_birthtime with
    | none => simp only [hts] at h; exact Except.noConfusion h
    | some ts =>
      simp only [hts] at h
      cases hy : fromtimestampYear ts with
      | error e => simp only [hy] at h; exact Except.noConfusion h
      | ok y =>
        simp only [hy] at h
        cases h
        exact ⟨st, ts, y, rfl, hts, hy, rfl⟩

theorem header_ok_of (callers : List String) (fs : FileSystem) (ts y : Int)
    (hst : fs.stat licensingFile = some ⟨some ts⟩)
    (hy : fromtimestampYear ts = Except.ok y) :
    header callers fs = Except.ok (headerText y) := by
  unfold header stack
  simp only [List.headD_cons]
  rw [hst]
  simp only [hy]

theorem fromtimestampYear_2025 : fromtimestampYear 1735689600 = Except.ok 2025 := by decide

theorem fromtimestampYear_2020 : fromtimestampYear 1577836800 = Except.ok 2020 := by decide

theorem fsBoth_stat : fsBoth.stat licensingFile = some ⟨some 1735689600⟩ := by decide

theorem header_fsBoth (callers : List String) :
    header callers fsBoth = Except.ok (headerText 2025) :=
  header_ok_of callers fsBoth 1735689600 2025 fsBoth_stat fromtimestampYear_2025

set_option maxRecDepth 100000 in
theorem headerText_eq_template (y : Int) :
    headerText y = headerPre ++ strOfInt y ++ headerSuf := by
  have hpre : headerPre =
      "// ===-------------------------------------------------------------------------------------------===".toList ++
        '\n' :: "  // Copyright © ".toList := by
    decide
  have hsuf : headerSuf =
      " Supernova. All rights reserved.".toList ++ '\n' :: ("  //".toList ++ '\n' :: ("  // This file is part of the Deus open-source project.".toList ++ '\n' :: ("  //".toList ++ '\n' :: ("  // This program is free software: you can redistribute it and/or modify it under the terms of the".toList ++ '\n' :: ("  // GNU General Public License as published by the Free Software Foundation, either version 3 of the".toList ++ '\n' :: ("  // License, or (at your option) any later version.".toList ++ '\n' :: ("  //".toList ++ '\n' :: ("  // This program is distributed in the hope that it will be useful, but WITHOUT ANY WARRANTY; without".toList ++ '\n' :: ("  // even the implied warranty of MERCHANTABILITY or FITNESS FOR A PARTICULAR PURPOSE. See the GNU".toList ++ '\n' :: ("  // General Public License for more details.".toList ++ '\n' :: ("  //".toList ++ '\n' :: ("  // You should have received a copy of the GNU General Public License along with this program. If".toList ++ '\n' :: ("  // not, see https://www.gnu.org/licenses.".toList ++ '\n' :: ("  // ===-------------------------------------------------------------------------------------------===".toList ++ '\n' :: ("  ".toList))))))))))))))) := by
    decide
  rw [hpre, hsuf]
  simp only [headerText, headerLines, joinLines, List.append_assoc, List.cons_append]

/-- C1: for every invocation of `header` whose computed creation year `y` is a
4-digit year, the returned string contains a line presenting
`Copyright © y Supernova. All rights reserved.` with the year rendered as a
4-digit integer (the line carries the two-space indentation and the `//`
comment marker in front of that text). -/
theorem C1_copyright_line (callers : List String) (fs : FileSystem) (s : PyStr)
    (st : Stat) (ts y : Int)
    (hok : header callers fs = Except.ok s)
    (hst : fs.stat licensingFile = some st) (hts : st.st_birthtime = some ts)
    (hy : fromtimestampYear ts = Except.ok y)
    (h4a : 1000 ≤ y) (h4b : y ≤ 9999) :
    ∃ l ∈ splitLines s,
      l = "  // ".toList ++
        ("Copyright © ".toList ++ strOfInt y ++ " Supernova. All rights reserved.".toList) ∧
      (strOfInt y).length = 4 := by
  obtain ⟨st', ts', y', hst', hts', hy', rfl⟩ := header_ok_inv callers fs s hok
  obtain rfl : st = st' := Option.some.inj (hst.symm.trans hst')
  obtain rfl : ts = ts' := Option.some.inj (hts.symm.trans hts')
  obtain rfl : y = y' := Except.ok.inj (hy.symm.trans hy')
  rw [splitLines_headerText y]
  refine ⟨"  // Copyright © ".toList ++ strOfInt y ++ " Supernova. All rights reserved.".toList,
    List.mem_cons_of_mem _ (List.mem_cons_self _ _), ?_, strOfInt_length_four y h4a h4b⟩
  rw [show ("  // Copyright © ".toList : PyStr) = "  // ".toList ++ "Copyright © ".toList from
    by decide]
  simp only [List.append_assoc]

/-- C1 witness: a concrete successful invocation with computed year 2025. -/
theorem C1_copyright_line_witness :
    ∃ l ∈ splitLines (headerText 2025),
      l = "  // ".toList ++
        ("Copyright © ".toList ++ strOfInt 2025 ++ " Supernova. All rights reserved.".toList) ∧
      (strOfInt 2025).length = 4 :=
  C1_copyright_line [] fsBoth (headerText 2025) ⟨some 1735689600⟩ 1735689600 2025
    (header_fsBoth []) fsBoth_stat rfl fromtimestampYear_2025 (by norm_num) (by norm_num)

/-- C2 counterexample: with the invoking file `caller.py` created in 2020 and
the licensing module created in 2025, `header` interpolates 2025 — the year of
its own module file — not 2020, the creation year of the file invoking it; so
the claim that the year comes from the invoking file is false. -/
theorem C2_counterexample :
    fsBoth.stat "caller.py" = some ⟨some 1577836800⟩ ∧
    fromtimestampYear 1577836800 = Except.ok 2020 ∧
    header ["caller.py"] fsBoth = Except.ok (headerText 2025) ∧
    header ["caller.py"] fsBoth ≠ Except.ok (headerText 2020) := by
  refine ⟨by decide, fromtimestampYear_2020, header_fsBoth _, ?_⟩
  rw [header_fsBoth]
  intro h
  have h' := Except.ok.inj h
  simp only [headerText, headerLines, strOfInt_2025, strOfInt_2020] at h'
  exact absurd h' (by decide)

/-- C2 amended: the year interpolated into the copyright line is the calendar
year of the filesystem creation time of the licensing module's own file — the
file that defines `header` — because `stack()[0]` denotes the frame of
`header` itself; the invoking file's metadata plays no role. -/
theorem C2_year_from_defining_file (callers : List String) (fs : FileSystem) (ts y : Int)
    (hst : fs.stat licensingFile = some ⟨some ts⟩)
    (hy : fromtimestampYear ts = Except.ok y) :
    header callers fs = Except.ok (headerText y) :=
  header_ok_of callers fs ts y hst hy

/-- C2 amended witness: the licensing module's creation year 2025 is the
interpolated year. -/
theorem C2_year_from_defining_file_witness :
    header ["caller.py"] fsBoth = Except.ok (headerText 2025) :=
  C2_year_from_defining_file ["caller.py"] fsBoth 1735689600 2025 fsBoth_stat
    fromtimestampYear_2025

/-- C3: the claim that every output line is at most 100 characters long is
violated by the code: at any successful invocation (here: creation year 2025)
the seventeen lines of the returned string have the lengths listed below —
the lines at indices 6, 9 and 15 are 101, 102 and 102 characters long. -/
theorem C3_line_lengths :
    header [] fsBoth = Except.ok (headerText 2025) ∧
    (splitLines (headerText 2025)).map List.length =
      [100, 53, 4, 55, 4, 99, 101, 52, 4, 102, 98, 45, 4, 98, 43, 102, 2] ∧
    ¬ (∀ l ∈ splitLines (headerText 2025), l.length ≤ 100) := by
  refine ⟨header_fsBoth [], ?_, ?_⟩
  · rw [splitLines_headerText]
    simp only [headerLines, strOfInt_2025]
    decide
  · rw [splitLines_headerText]
    simp only [headerLines, strOfInt_2025]
    decide

/-- C4 counterexample: the returned string does not end with a
horizontal-rule delimiter line — its final line is the two-space remnant of
the closing triple quote, a line containing neither `=` nor `/`. -/
theorem C4_counterexample :
    header [] fsBoth = Except.ok (headerText 2025) ∧
    (splitLines (headerText 2025)).getLast? = some "  ".toList ∧
    '=' ∉ ("  ".toList : PyStr) ∧ '/' ∉ ("  ".toList : PyStr) := by
  refine ⟨header_fsBoth [], ?_, by decide, by decide⟩
  rw [splitLines_headerText]
  rfl

/-- C4 amended: the returned string begins with a horizontal-rule delimiter
line; the closing horizontal-rule delimiter line is its second-to-last line
(indented by two spaces), and the string ends with a final line holding only
that two-space indentation. -/
theorem C4_delimiters (callers : List String) (fs : FileSystem) (s : PyStr)
    (hok : header callers fs = Except.ok s) :
    (splitLines s).head? = some hruleChars ∧
    (splitLines s).get? 15 = some ("  ".toList ++ hruleChars) ∧
    (splitLines s).getLast? = some "  ".toList := by
  obtain ⟨st, ts, y, _, _, _, rfl⟩ := header_ok_inv callers fs s hok
  rw [splitLines_headerText]
  exact ⟨rfl, rfl, rfl⟩

/-- C4 amended witness: a concrete successful invocation. -/
theorem C4_delimiters_witness :
    (splitLines (headerText 2025)).head? = some hruleChars ∧
    (splitLines (headerText 2025)).get? 15 = some ("  ".toList ++ hruleChars) ∧
    (splitLines (headerText 2025)).getLast? = some "  ".toList :=
  C4_delimiters [] fsBoth (headerText 2025) (header_fsBoth [])

/-- C5: `header` fails with an explicit error — returning no result at all —
when the file no longer exists (the `stat` call fails) or when the filesystem
records no creation time (`st_birthtime` is absent); the error is the
propagated exception, with no retry, no fallback, and no partial result. -/
theorem C5_error_cases (callers : List String) (fs : FileSystem) :
    (fs.stat licensingFile = none → header callers fs = Except.error PyError.osError) ∧
    (∀ st, fs.stat licensingFile = some st → st.st_birthtime = none →
      header callers fs = Except.error PyError.attributeError) ∧
    (∀ e, header callers fs = Except.error e → ∀ s, header callers fs ≠ Except.ok s) := by
  refine ⟨?_, ?_, ?_⟩
  · intro h
    unfold header stack
    simp only [List.headD_cons, h]
  · intro st h hbt
    unfold header stack
    simp only [List.headD_cons, h, hbt]
  · intro e he s hs
    rw [he] at hs
    exact Except.noConfusion hs

/-- C5 witness: a missing file produces `OSError`; a filesystem without
creation-time support produces `AttributeError`. -/
theorem C5_error_cases_witness :
    header [] fsMissing = Except.error PyError.osError ∧
    header [] fsNoBirth = Except.error PyError.attributeError :=
  ⟨(C5_error_cases [] fsMissing).1 rfl,
   (C5_error_cases [] fsNoBirth).2.1 ⟨none⟩ rfl rfl⟩

/-- C6: two invocations from the same calling file with the filesystem
creation-time metadata unchanged between them return byte-identical
strings. -/
theorem C6_deterministic (callers₁ callers₂ : List String) (fs₁ fs₂ : FileSystem)
    (hcall : callers₁.head? = callers₂.head?)
    (hfs : ∀ p, fs₁.stat p = fs₂.stat p) :
    header callers₁ fs₁ = header callers₂ fs₂ := by
  unfold header stack
  simp only [List.headD_cons]
  rw [hfs licensingFile]

/-- C6 witness: two concrete invocations from `caller.py` on the same
filesystem. -/
theorem C6_deterministic_witness :
    header ["caller.py"] fsBoth = header ["caller.py", "other.py"] fsBoth :=
  C6_deterministic ["caller.py"] ["caller.py", "other.py"] fsBoth fsBoth rfl (fun _ => rfl)

/-- C7 counterexample: not every line of the returned string is prefixed with
the `//` comment marker — the final line is the two-space remnant of the
closing triple quote and contains no `/` at all. -/
theorem C7_counterexample :
    header [] fsBoth = Except.ok (headerText 2025) ∧
    (splitLines (headerText 2025)).getLast? = some "  ".toList ∧
    '/' ∉ ("  ".toList : PyStr) ∧
    ("  ".toList : PyStr).take 2 ≠ "//".toList := by
  refine ⟨header_fsBoth [], ?_, by decide, by decide⟩
  rw [splitLines_headerText]
  rfl

/-- C7 amended: every line of the returned string except its final two-space
line carries the `//` line-comment marker of the generated Swift file: the
first line starts with `//` and every other line starts with two spaces of
indentation followed by `//`. -/
theorem C7_comment_markers (callers : List String) (fs : FileSystem) (s : PyStr)
    (hok : header callers fs = Except.ok s) :
    ∀ l ∈ (splitLines s).dropLast,
      l.take 2 = "//".toList ∨ l.take 4 = "  //".toList := by
  obtain ⟨st, ts, y, _, _, _, rfl⟩ := header_ok_inv callers fs s hok
  rw [splitLines_headerText]
  intro l hl
  simp only [headerLines, List.dropLast, List.mem_cons, List.not_mem_nil, or_false] at hl
  rcases hl with rfl | rfl | rfl | rfl | rfl | rfl | rfl | rfl | rfl | rfl | rfl | rfl | rfl |
    rfl | rfl | rfl
  case inl => exact Or.inl rfl
  all_goals exact Or.inr rfl

/-- C7 amended witness: a concrete successful invocation, instantiated at the
third line of the returned string. -/
theorem C7_comment_markers_witness :
    ("  //".toList : PyStr).take 2 = "//".toList ∨
      ("  //".toList : PyStr).take 4 = "  //".toList :=
  C7_comment_markers [] fsBoth (headerText 2025) (header_fsBoth []) "  //".toList
    (by
      rw [splitLines_headerText]
      exact List.mem_cons_of_mem _ (List.mem_cons_of_mem _ (List.mem_cons_self _ _)))

/-- C8: `header` has no side effect beyond the single filesystem metadata
read: run as a state-passing computation over the observable world (the
filesystem metadata together with any other observable state), it returns the
world unchanged, and its value is the pure function of that metadata. -/
theorem C8_no_side_effects (σ : Type) (callers : List String) (w : World σ) :
    (headerRun callers w).2 = w ∧ (headerRun callers w).1 = header callers w.fs := by
  unfold headerRun header stack
  simp only [List.headD_cons]
  cases hst : w.fs.stat licensingFile with
  | none => exact ⟨rfl, rfl⟩
  | some st =>
    cases hbt : st.st_birthtime with
    | none => simp [hbt]
    | some ts =>
      simp only [hbt]
      cases hy : fromtimestampYear ts with
      | error e => simp [hy]
      | ok y => simp [hy]

/-- C9: `stack()[0]` is the frame of `header` itself, so the inspected path is
always the licensing module's own file, and the output is independent of the
call site: any two invocations on the same filesystem return identical
results. -/
theorem C9_call_site_independence (callers₁ callers₂ : List String) (fs : FileSystem) :
    (stack callers₁).headD "" = licensingFile ∧
    header callers₁ fs = header callers₂ fs :=
  ⟨rfl, rfl⟩

/-- C10: the returned string is a single fixed template with exactly one
substitution point: every successful result equals the constant `headerPre`,
then the rendering of the computed year, then the constant `headerSuf` (which
contains the project name and the GPL-3.0-or-later boilerplate); two
successful invocations can differ only in the year rendering. -/
theorem C10_single_template (callers₁ callers₂ : List String) (fs₁ fs₂ : FileSystem)
    (s₁ s₂ : PyStr)
    (h₁ : header callers₁ fs₁ = Except.ok s₁) (h₂ : header callers₂ fs₂ = Except.ok s₂) :
    ∃ y₁ y₂ : Int, s₁ = headerPre ++ strOfInt y₁ ++ headerSuf ∧
      s₂ = headerPre ++ strOfInt y₂ ++ headerSuf := by
  obtain ⟨st₁, ts₁, y₁, _, _, _, rfl⟩ := header_ok_inv callers₁ fs₁ s₁ h₁
  obtain ⟨st₂, ts₂, y₂, _, _, _, rfl⟩ := header_ok_inv callers₂ fs₂ s₂ h₂
  exact ⟨y₁, y₂, headerText_eq_template y₁, headerText_eq_template y₂⟩

/-- C10 witness: two concrete successful invocations. -/
theorem C10_single_template_witness :
    ∃ y₁ y₂ : Int, headerText 2025 = headerPre ++ strOfInt y₁ ++ headerSuf ∧
      headerText 2025 = headerPre ++ strOfInt y₂ ++ headerSuf :=
  C10_single_template [] ["caller.py"] fsBoth fsBoth (headerText 2025) (headerText 2025)
    (header_fsBoth []) (header_fsBoth ["caller.py"])

end Licensing
